import Mathlib

/-!
Verification of the rate limiter, cache-invalidation discipline and command
handlers of `bot.py`, the Telegram admin front end of the shipment tracker.

The Python source is shallowly embedded.  Each handler becomes a pure
function from an environment (configuration, admin allowlist, black-box
collaborators) and a key-value-store state to an `Outcome` that records, in
order, the observable events of the run (store operations, replies to the
requester, log lines), the final store state, and the exception escaping the
handler, if any.  Store failures are modelled by per-operation fault flags in
the environment: a flag set means the corresponding store call raises.

A detail of the source that matters throughout: `bot.py` references `Panel`
inside every `except` block (`console.print(Panel(...))`) but never imports
it, so reaching any of those lines raises a Python `NameError` from within
the exception handler itself.
-/

namespace Signment

/-- Exceptions raised while a handler runs.  `nameError` models the Python
`NameError` produced by referencing an identifier that was never imported. -/
inductive PyExc where
  | storeError (msg : String)
  | nameError (ident : String)
  | valueError (msg : String)
  deriving DecidableEq

/-- Rendering of an exception, standing in for Python `str(e)`. -/
def PyExc.toMsg : PyExc → String
  | .storeError m => m
  | .nameError n => "NameError: " ++ n ++ " is not defined"
  | .valueError m => m

/-- Observable events of a handler run, in program order: key-value-store
operations, calls to the black-box shipment backend, replies sent to the
requester, and log lines.  `handlerCall` marks the point where the
`rate_limit` wrapper invokes the wrapped handler (`return func(message)`). -/
inductive Event where
  | incrOp (key : String)
  | expireOp (key : String) (seconds : Nat)
  | deleteOp (key : String)
  | hgetOp (hash field : String)
  | hsetOp (hash field value : String)
  | hdelOp (hash field : String)
  | backendLookup (tn : String)
  | dbQuery (tn : String)
  | dbCommit (tn : String) (url : String)
  | menuSent (page : Nat)
  | reply (text : String)
  | logInfo (msg : String)
  | logDebug (msg : String)
  | logWarning (msg : String)
  | logError (msg : String)
  | handlerCall
  deriving DecidableEq

/-- A rate-limit counter entry: the count and, once `EXPIRE` has been
applied, the absolute time at which the key vanishes. -/
structure Counter where
  count : Nat
  expiresAt : Option Nat
  deriving DecidableEq

/-- Association-list lookup (first match wins). -/
def lookup {α : Type} {β : Type} [DecidableEq α] : List (α × β) → α → Option β
  | [], _ => none
  | (k, v) :: rest, k' => if k = k' then some v else lookup rest k'

/-- Set a key in an association list, replacing an existing binding. -/
def setKey {α : Type} {β : Type} [DecidableEq α] : List (α × β) → α → β → List (α × β)
  | [], k, v => [(k, v)]
  | (k', v') :: rest, k, v =>
    if k' = k then (k, v) :: rest else (k', v') :: setKey rest k v

/-- Delete a key from an association list. -/
def delKey {α : Type} {β : Type} [DecidableEq α] : List (α × β) → α → List (α × β)
  | [], _ => []
  | (k', v') :: rest, k =>
    if k' = k then delKey rest k else (k', v') :: delKey rest k

/-- Modelled from the spec: the shared key-value store ("a key-value store
exposing increment, expire, get, set/hset, delete, ... operations").  The
rate-limit counters, the hash tables (`paused_simulations`,
`sim_speed_multipliers`), the read-through cache keys (`shipment:<tn>`) and
the relational rows touched by `handle_set_webhook` (tracking number to
webhook URL) are kept in separate components because their key spaces are
disjoint in the source. -/
structure Store where
  counters : List (String × Counter)
  hashes : List ((String × String) × String)
  cache : List (String × String)
  webhooks : List (String × String)
  deriving DecidableEq

/-- The empty store. -/
def emptyStore : Store := ⟨[], [], [], []⟩

/-- A counter entry that is still alive at time `t` (its expiry, if set, has
not passed).  Redis makes an expired key indistinguishable from a missing
one. -/
def liveEntry (l : List (String × Counter)) (t : Nat) (key : String) : Option Counter :=
  match lookup l key with
  | none => none
  | some c =>
    match c.expiresAt with
    | none => some c
    | some e => if t < e then some c else none

/-- Modelled from the spec: atomic `INCR` at time `t`.  A missing or expired
key is created with value 1 and no expiry; a live key is incremented with
its expiry preserved.  Returns the post-increment value. -/
def redisIncr (s : Store) (t : Nat) (key : String) : Nat × Store :=
  match liveEntry s.counters t key with
  | some c =>
    (c.count + 1, { s with counters := setKey s.counters key ⟨c.count + 1, c.expiresAt⟩ })
  | none => (1, { s with counters := setKey s.counters key ⟨1, none⟩ })

/-- Modelled from the spec: atomic `EXPIRE key secs` at time `t`; a no-op on
a missing or expired key. -/
def redisExpire (s : Store) (t : Nat) (key : String) (secs : Nat) : Store :=
  match liveEntry s.counters t key with
  | some c => { s with counters := setKey s.counters key ⟨c.count, some (t + secs)⟩ }
  | none => s

/-- Modelled from the spec: `DELETE` on a cache key; deleting a missing key
is a no-op. -/
def redisDelete (s : Store) (key : String) : Store :=
  { s with cache := delKey s.cache key }

/-- `HGET`. -/
def hget (s : Store) (h f : String) : Option String :=
  lookup s.hashes (h, f)

/-- `HSET`. -/
def hset (s : Store) (h f v : String) : Store :=
  { s with hashes := setKey s.hashes (h, f) v }

/-- `HDEL`. -/
def hdel (s : Store) (h f : String) : Store :=
  { s with hashes := delKey s.hashes (h, f) }

/-- Modelled from the spec: the dictionary returned by the unseen
collaborator `get_shipment_details`.  Only the fields the embedded handlers
read are kept; the purely textual fields are carried as the strings they
render to in the `/track` reply. -/
structure ShipmentRec where
  status : String
  paused : Bool
  deliveryLocation : String
  speedText : String
  checkpointsText : String
  deriving DecidableEq

/-- Which store / backend operations raise on their next call.  One flag per
operation site suffices because each handler performs each kind of operation at
most once per run. -/
structure Faults where
  incr : Bool
  expire : Bool
  hg : Bool
  hs : Bool
  hd : Bool
  del : Bool
  backend : Bool
  query : Bool
  commit : Bool
  deriving DecidableEq

/-- No operation raises. -/
def noFaults : Faults := ⟨false, false, false, false, false, false, false, false, false⟩

/-- The environment of a run: configuration, the admin allowlist, the
black-box collaborators of the unseen `utils`/app module, and the fault
flags.  `redisAvailable` is `redis_client is not None`. -/
structure Env where
  redisAvailable : Bool
  rateLimitMax : Nat
  rateLimitWindow : Nat
  admins : List Nat
  shipments : List (String × ShipmentRec)
  sanitizeInput : String → String
  sanitizeTracking : String → Option String
  validWebhookUrl : String → Bool
  faults : Faults

/-- Result of running a handler: the ordered event trace, the final store,
and the exception escaping the handler, if any. -/
structure Outcome where
  events : List Event
  store : Store
  exc : Option PyExc
  deriving DecidableEq

/-- A wrapped command handler, as seen by the `rate_limit` decorator. -/
abbrev Handler := Env → Store → Outcome

/-- Modelled from the spec: the admin identifier allowlist check
(`is_admin` from the unseen `utils` module; "admin identifier allowlist:
comma-separated set of privileged user identifiers"). -/
def is_admin (env : Env) (uid : Nat) : Bool :=
  env.admins.contains uid

/-- Modelled from the spec: `get_shipment_details`, a black-box lookup by
tracking identifier in the unseen module, subject to transient failure
(`env.faults.backend`). -/
def get_shipment_details (env : Env) (tn : String) : Except PyExc (Option ShipmentRec) :=
  if env.faults.backend = true then
    .error (.storeError ("get_shipment_details failed for " ++ tn))
  else
    .ok (lookup env.shipments tn)

/-- Embedding of `invalidate_cache` (`bot.py` lines 67-77).  If the client
exists, try to `DELETE` the key `shipment:<tn>` and log; on a store failure
the `except` block logs the error and then evaluates `Panel`, which is not
imported, so a `NameError` escapes. -/
def invalidate_cache (env : Env) (s : Store) (tn : String) : Outcome :=
  if env.redisAvailable then
    if env.faults.del = true then
      { events := [.logError ("Error invalidating cache for " ++ tn)],
        store := s, exc := some (.nameError "Panel") }
    else
      { events := [.deleteOp ("shipment:" ++ tn),
                   .logDebug ("Invalidated cache for " ++ tn)],
        store := redisDelete s ("shipment:" ++ tn), exc := none }
  else
    { events := [], store := s, exc := none }

/-- Tail of the `rate_limit` wrapper (`bot.py` lines 52-61): the
post-increment count has been computed; reject when it exceeds
`RATE_LIMIT_MAX`, otherwise run the wrapped handler inside the same `try`.
When the handler raises, the wrapper's `except` logs the error and then
evaluates the unimported `Panel`, so the `NameError` escapes and the
"Error processing request" reply is never sent. -/
def rateLimitAfter (h : Handler) (env : Env) (s : Store) (uid : Nat)
    (count : Nat) (evts : List Event) : Outcome :=
  if env.rateLimitMax < count then
    { events := evts ++ [.reply "Rate limit exceeded. Please try again later.",
                         .logWarning ("Rate limit exceeded for user " ++ toString uid)],
      store := s, exc := none }
  else
    let r := h env s
    match r.exc with
    | none => { events := evts ++ .handlerCall :: r.events, store := r.store, exc := none }
    | some e =>
      { events := evts ++ .handlerCall :: r.events ++
          [.logError ("Redis error in rate_limit: " ++ e.toMsg)],
        store := r.store, exc := some (.nameError "Panel") }

/-- Embedding of the `rate_limit` decorator (`bot.py` lines 43-62) at time
`t`.  With no client the count is 0 and the handler always runs; otherwise
`INCR` the per-user key, `EXPIRE` it for `RATE_LIMIT_WINDOW` seconds when
the post-increment count is 1, then check the threshold.  A raising store
operation lands in the `except` block: the failure is logged, then the
unimported `Panel` raises `NameError`. -/
def rate_limit (h : Handler) (env : Env) (s : Store) (t : Nat) (uid : Nat) : Outcome :=
  let key := "rate_limit:" ++ toString uid
  if env.redisAvailable then
    if env.faults.incr = true then
      { events := [.logError ("Redis error in rate_limit: " ++
                     (PyExc.storeError "incr failed").toMsg)],
        store := s, exc := some (.nameError "Panel") }
    else
      let count := (redisIncr s t key).1
      let s1 := (redisIncr s t key).2
      if count = 1 then
        if env.faults.expire = true then
          { events := [.incrOp key,
                       .logError ("Redis error in rate_limit: " ++
                         (PyExc.storeError "expire failed").toMsg)],
            store := s1, exc := some (.nameError "Panel") }
        else
          rateLimitAfter h env (redisExpire s1 t key env.rateLimitWindow) uid count
            [.incrOp key, .expireOp key env.rateLimitWindow]
      else
        rateLimitAfter h env s1 uid count [.incrOp key]
  else
    rateLimitAfter h env s uid 0 []

/-! ### Python string and float primitives used by the handlers -/

/-- Python whitespace, as used by `str.split()` / `str.strip()` with no
separator argument. -/
def isPySpace (c : Char) : Bool :=
  c == ' ' || c == '\t' || c == '\n' || c == '\r' || c == Char.ofNat 11 || c == Char.ofNat 12

/-- Drop leading Python whitespace. -/
def dropSpaces : List Char → List Char
  | [] => []
  | c :: cs => if isPySpace c then dropSpaces cs else c :: cs

/-- Split off the leading non-whitespace token. -/
def takeToken : List Char → List Char × List Char
  | [] => ([], [])
  | c :: cs =>
    if isPySpace c then ([], c :: cs)
    else
      let p := takeToken cs
      (c :: p.1, p.2)

/-- Core of Python `str.split(maxsplit=n)` with no separator: split on runs
of whitespace; once the budget `n` is exhausted the remainder (leading
whitespace stripped) is the final field. -/
def pySplitAux (n : Nat) (cs : List Char) : List (List Char) :=
  match dropSpaces cs with
  | [] => []
  | c :: rest =>
    match n with
    | 0 => [c :: rest]
    | m + 1 =>
      let p := takeToken (c :: rest)
      p.1 :: pySplitAux m p.2

/-- Python `text.split(maxsplit=n)` (whitespace separator). -/
def pySplit (text : String) (maxsplit : Nat) : List String :=
  (pySplitAux maxsplit text.data).map (fun cs => String.mk cs)

/-- Python `s.strip()`. -/
def pyStrip (s : String) : String :=
  String.mk (dropSpaces ((dropSpaces s.data.reverse).reverse))

/-- An exact fraction `n / d` kept unnormalised (the denominator the parser
produces is always a positive power of ten), so that all arithmetic on it is
plain `Int`/`Nat` arithmetic. -/
structure Frac where
  n : Int
  d : Nat
  deriving DecidableEq

/-- The rational value of a fraction. -/
def Frac.toRat (f : Frac) : Rat := (f.n : Rat) / (f.d : Rat)

/-- Negation. -/
def Frac.neg (f : Frac) : Frac := ⟨-f.n, f.d⟩

/-- A Python float value as produced by `float(str)`: a finite value
(idealised as an exact fraction), `nan`, or a signed infinity. -/
inductive PyF where
  | num (f : Frac)
  | nan
  | inf (neg : Bool)
  deriving DecidableEq

/-- Decimal digit value. -/
def digitVal (c : Char) : Option Nat :=
  if '0' ≤ c ∧ c ≤ '9' then some (c.toNat - '0'.toNat) else none

/-- Split off a maximal run of decimal digits. -/
def takeDigits : List Char → List Nat × List Char
  | [] => ([], [])
  | c :: cs =>
    match digitVal c with
    | some d =>
      let p := takeDigits cs
      (d :: p.1, p.2)
    | none => ([], c :: cs)

/-- Digits to the natural number they denote. -/
def digitsToNat (ds : List Nat) : Nat :=
  ds.foldl (fun a d => a * 10 + d) 0

/-- Exponent digits (with sign already consumed); the whole rest of the
input must be digits. -/
def parseExpDigits (ds : List Char) (neg : Bool) : Option Int :=
  let p := takeDigits ds
  if p.1 = [] ∨ p.2 ≠ [] then none
  else some (if neg then -(digitsToNat p.1 : Int) else (digitsToNat p.1 : Int))

/-- Optional exponent suffix `e[±]digits`; an empty rest means exponent 0. -/
def parseExponent : List Char → Option Int
  | [] => some 0
  | c :: cs =>
    if c == 'e' || c == 'E' then
      match cs with
      | '+' :: ds => parseExpDigits ds false
      | '-' :: ds => parseExpDigits ds true
      | ds => parseExpDigits ds false
    else none

/-- Assemble the fraction from a mantissa `m` (already scaled by
`10 ^ flen`, the length of the fractional digit group) and the exponent. -/
def applyExp (m : Nat) (flen : Nat) : Int → Frac
  | .ofNat k => ⟨(m : Int) * (10 : Int) ^ k, 10 ^ flen⟩
  | .negSucc k => ⟨(m : Int), 10 ^ flen * 10 ^ (k + 1)⟩

/-- Numeric body of a float literal: `digits[.digits][exp]` with at least
one digit in the mantissa.  (Digit-group underscores are not modelled.) -/
def parseNumericBody (cs : List Char) : Option Frac :=
  let ip := takeDigits cs
  match ip.2 with
  | '.' :: rest =>
    let fp := takeDigits rest
    if ip.1 = [] ∧ fp.1 = [] then none
    else
      match parseExponent fp.2 with
      | some e =>
        some (applyExp (digitsToNat ip.1 * 10 ^ fp.1.length + digitsToNat fp.1) fp.1.length e)
      | none => none
  | _ =>
    if ip.1 = [] then none
    else
      match parseExponent ip.2 with
      | some e => some (applyExp (digitsToNat ip.1) 0 e)
      | none => none

/-- Case-insensitive comparison against a keyword. -/
def lowerEq (cs : List Char) (w : String) : Bool :=
  decide (cs.map Char.toLower = w.data)

/-- Body of `float()` after the optional sign: `nan`, `inf`/`infinity`
(case-insensitive) or a numeric literal. -/
def parseFloatBody (cs : List Char) (neg : Bool) : Option PyF :=
  if lowerEq cs "nan" then some .nan
  else if lowerEq cs "inf" || lowerEq cs "infinity" then some (.inf neg)
  else
    match parseNumericBody cs with
    | some f => some (.num (if neg then f.neg else f))
    | none => none

/-- Python `float(s)`: strip whitespace, consume an optional sign, parse the
body; `none` models the `ValueError`. -/
def pyFloatOfString (s : String) : Option PyF :=
  match dropSpaces ((dropSpaces s.data.reverse).reverse) with
  | '+' :: rest => parseFloatBody rest false
  | '-' :: rest => parseFloatBody rest true
  | rest => parseFloatBody rest false

/-- IEEE comparison `x < c` against a finite constant (cross-multiplied so
it stays in `Int` arithmetic): `nan` compares false either way. -/
def pyLtQ : PyF → Frac → Bool
  | .num f, c => decide (f.n * (c.d : Int) < c.n * (f.d : Int))
  | .nan, _ => false
  | .inf neg, _ => neg

/-- IEEE comparison `x > c` against a finite constant. -/
def pyGtQ : PyF → Frac → Bool
  | .num f, c => decide (c.n * (f.d : Int) < f.n * (c.d : Int))
  | .nan, _ => false
  | .inf neg, _ => !neg

/-- The constant `0.1` of the range check. -/
def tenthFrac : Frac := ⟨1, 10⟩

/-- The constant `10` of the range check. -/
def tenFrac : Frac := ⟨10, 1⟩

/-- Rendering of a parsed float, standing in for Python `str(speed)` (the
decimal formatting of finite values is abstracted to the fraction's own
rendering; `str(float(\x27nan\x27)) = "nan"` is preserved exactly). -/
def pyFloatStr : PyF → String
  | .nan => "nan"
  | .inf neg => if neg then "-inf" else "inf"
  | .num f => toString f.n ++ "/" ++ toString f.d

/-! ### Command handlers

Each embedded handler takes the requesting user id and the raw message text,
mirroring the source line by line.  Inline-keyboard markup has no observable
effect on the store and is elided; replies carry their exact text.  The
`except` block shared by the command handlers (`bot.reply_to(message,
f"Error: {e}")`, `bot_logger.error(...)`, then the unimported `Panel`) is
factored into `handlerExcept`. -/

/-- The `except Exception as e` block of a command handler `cmd`: reply the
error, log it, then raise `NameError` from the unimported `Panel`. -/
def handlerExcept (cmd : String) (evts : List Event) (s : Store) (e : PyExc) : Outcome :=
  { events := evts ++ [.reply ("Error: " ++ e.toMsg),
                       .logError ("Error in " ++ cmd ++ " command: " ++ e.toMsg)],
    store := s, exc := some (.nameError "Panel") }

/-- Embedding of `send_menu` (`bot.py` lines 88-99): the `/start` / `/menu`
handler.  Non-admins are denied; admins get the dynamic menu (a black-box
renderer, recorded as `menuSent`). -/
def send_menu (env : Env) (uid : Nat) (s : Store) : Outcome :=
  if is_admin env uid then
    { events := [.menuSent 1, .logInfo ("Menu sent to admin " ++ toString uid)],
      store := s, exc := none }
  else
    { events := [.reply "Access denied.",
                 .logWarning ("Access denied for user " ++ toString uid)],
      store := s, exc := none }

/-- The `/track` reply text (`bot.py` lines 130-137). -/
def trackResponse (tn : String) (sh : ShipmentRec) : String :=
  "*Shipment*: `" ++ tn ++ "`\n" ++
  "*Status*: `" ++ sh.status ++ "`\n" ++
  "*Paused*: `" ++ (if sh.paused then "True" else "False") ++ "`\n" ++
  "*Speed Multiplier*: `" ++ sh.speedText ++ "x`\n" ++
  "*Delivery Location*: `" ++ sh.deliveryLocation ++ "`\n" ++
  "*Checkpoints*: `" ++ sh.checkpointsText ++ "`"

/-- Embedding of `track_shipment` (`bot.py` lines 101-158): admin check,
argument check, tracking-number sanitisation, then a backend lookup whose
result (or failure) determines the reply. -/
def track_shipment (env : Env) (uid : Nat) (text : String) (s : Store) : Outcome :=
  if is_admin env uid then
    match pySplit text 1 with
    | _ :: rawArg :: _ =>
      match env.sanitizeTracking (env.sanitizeInput (pyStrip rawArg)) with
      | some tn =>
        match get_shipment_details env tn with
        | .error e => handlerExcept "track" [] s e
        | .ok none =>
          { events := [.backendLookup tn,
                       .reply ("Shipment `" ++ tn ++ "` not found."),
                       .logWarning ("Shipment not found: " ++ tn)],
            store := s, exc := none }
        | .ok (some sh) =>
          { events := [.backendLookup tn,
                       .reply (trackResponse tn sh),
                       .logInfo ("Sent tracking details for " ++ tn)],
            store := s, exc := none }
      | none =>
        { events := [.reply "Invalid tracking number.",
                     .logError ("Invalid tracking number: " ++ rawArg)],
          store := s, exc := none }
    | _ =>
      { events := [.reply "Usage: /track <tracking_number>\nExample: /track TRK20231010120000ABC123",
                   .logWarning "Invalid /track command format"],
        store := s, exc := none }
  else
    { events := [.reply "Access denied.",
                 .logWarning ("Access denied for /track by " ++ toString uid)],
      store := s, exc := none }

/-- Tail of `stop_simulation` after the paused check (`bot.py` lines
339-344): `hset paused_simulations tn "true"` when the client exists, then
invalidate the cache, log, and reply success.  A `NameError` escaping
`invalidate_cache` is caught by the handler's own `except`. -/
def stopFinish (env : Env) (tn : String) (evts : List Event) (s : Store) : Outcome :=
  let inv := invalidate_cache env s tn
  match inv.exc with
  | some e => handlerExcept "stop" (evts ++ inv.events) inv.store e
  | none =>
    { events := evts ++ inv.events ++
        [.logInfo ("Paused simulation for " ++ tn),
         .reply ("Simulation paused for `" ++ tn ++ "`.")],
      store := inv.store, exc := none }

/-- The `if redis_client: hset(...)` step of `stop_simulation`. -/
def stopWrite (env : Env) (tn : String) (evts : List Event) (s : Store) : Outcome :=
  if env.redisAvailable then
    if env.faults.hs = true then
      handlerExcept "stop" evts s (.storeError "hset failed")
    else
      stopFinish env tn (evts ++ [.hsetOp "paused_simulations" tn "true"])
        (hset s "paused_simulations" tn "true")
  else
    stopFinish env tn evts s

/-- Embedding of `stop_simulation` (`bot.py` lines 300-348): the `/stop`
handler.  Admin check, argument parsing, then inside `try`: backend lookup,
completed-status check, already-paused check (`hget` when the client
exists), the pause write, cache invalidation, success reply. -/
def stop_simulation (env : Env) (uid : Nat) (text : String) (s : Store) : Outcome :=
  if is_admin env uid then
    match pySplit text 1 with
    | _ :: rawArg :: _ =>
      match env.sanitizeTracking (env.sanitizeInput (pyStrip rawArg)) with
      | some tn =>
        match get_shipment_details env tn with
        | .error e => handlerExcept "stop" [] s e
        | .ok none =>
          { events := [.backendLookup tn,
                       .reply ("Shipment `" ++ tn ++ "` not found."),
                       .logWarning ("Shipment not found: " ++ tn)],
            store := s, exc := none }
        | .ok (some sh) =>
          if sh.status = "Delivered" ∨ sh.status = "Returned" then
            { events := [.backendLookup tn,
                         .reply ("Shipment `" ++ tn ++ "` is already completed (`" ++ sh.status ++ "`)."),
                         .logWarning ("Cannot pause completed shipment: " ++ tn)],
              store := s, exc := none }
          else
            if env.redisAvailable then
              if env.faults.hg = true then
                handlerExcept "stop" [.backendLookup tn] s (.storeError "hget failed")
              else
                if hget s "paused_simulations" tn = some "true" then
                  { events := [.backendLookup tn, .hgetOp "paused_simulations" tn,
                               .reply ("Simulation for `" ++ tn ++ "` is already paused."),
                               .logWarning ("Simulation already paused: " ++ tn)],
                    store := s, exc := none }
                else
                  stopWrite env tn [.backendLookup tn, .hgetOp "paused_simulations" tn] s
            else
              stopWrite env tn [.backendLookup tn] s
      | none =>
        { events := [.reply "Invalid tracking number.",
                     .logError ("Invalid tracking number: " ++ rawArg)],
          store := s, exc := none }
    | _ =>
      { events := [.reply "Usage: /stop <tracking_number>\nExample: /stop TRK20231010120000ABC123",
                   .logWarning "Invalid /stop command format"],
        store := s, exc := none }
  else
    { events := [.reply "Access denied.",
                 .logWarning ("Access denied for /stop by " ++ toString uid)],
      store := s, exc := none }

/-- Tail of `continue_simulation` after the resume write (`bot.py` lines
389-394): invalidate the cache, log, reply success. -/
def continueFinish (env : Env) (tn : String) (evts : List Event) (s : Store) : Outcome :=
  let inv := invalidate_cache env s tn
  match inv.exc with
  | some e => handlerExcept "continue" (evts ++ inv.events) inv.store e
  | none =>
    { events := evts ++ inv.events ++
        [.logInfo ("Resumed simulation for " ++ tn),
         .reply ("Simulation resumed for `" ++ tn ++ "`.")],
      store := inv.store, exc := none }

/-- Backend lookup and onward steps of `continue_simulation` (`bot.py`
lines 378-394), reached after the paused check. -/
def continueLookup (env : Env) (tn : String) (evts : List Event) (s : Store) : Outcome :=
  match get_shipment_details env tn with
  | .error e => handlerExcept "continue" evts s e
  | .ok none =>
    { events := evts ++ [.backendLookup tn,
                         .reply ("Shipment `" ++ tn ++ "` not found."),
                         .logWarning ("Shipment not found: " ++ tn)],
      store := s, exc := none }
  | .ok (some sh) =>
    if sh.status = "Delivered" ∨ sh.status = "Returned" then
      { events := evts ++ [.backendLookup tn,
                           .reply ("Shipment `" ++ tn ++ "` is already completed (`" ++ sh.status ++ "`)."),
                           .logWarning ("Cannot resume completed shipment: " ++ tn)],
        store := s, exc := none }
    else
      if env.redisAvailable then
        if env.faults.hd = true then
          handlerExcept "continue" (evts ++ [.backendLookup tn]) s (.storeError "hdel failed")
        else
          continueFinish env tn (evts ++ [.backendLookup tn, .hdelOp "paused_simulations" tn])
            (hdel s "paused_simulations" tn)
      else
        continueFinish env tn (evts ++ [.backendLookup tn]) s

/-- Embedding of `continue_simulation` (`bot.py` lines 350-398): the
`/continue` handler.  The not-paused check (`hget`, only when the client
exists) runs before the backend lookup, mirroring the source order. -/
def continue_simulation (env : Env) (uid : Nat) (text : String) (s : Store) : Outcome :=
  if is_admin env uid then
    match pySplit text 1 with
    | _ :: rawArg :: _ =>
      match env.sanitizeTracking (env.sanitizeInput (pyStrip rawArg)) with
      | some tn =>
        if env.redisAvailable then
          if env.faults.hg = true then
            handlerExcept "continue" [] s (.storeError "hget failed")
          else
            if hget s "paused_simulations" tn ≠ some "true" then
              { events := [.hgetOp "paused_simulations" tn,
                           .reply ("Simulation for `" ++ tn ++ "` is not paused."),
                           .logWarning ("Simulation not paused: " ++ tn)],
                store := s, exc := none }
            else
              continueLookup env tn [.hgetOp "paused_simulations" tn] s
        else
          continueLookup env tn [] s
      | none =>
        { events := [.reply "Invalid tracking number.",
                     .logError ("Invalid tracking number: " ++ rawArg)],
          store := s, exc := none }
    | _ =>
      { events := [.reply "Usage: /continue <tracking_number>\nExample: /continue TRK20231010120000ABC123",
                   .logWarning "Invalid /continue command format"],
        store := s, exc := none }
  else
    { events := [.reply "Access denied.",
                 .logWarning ("Access denied for /continue by " ++ toString uid)],
      store := s, exc := none }

/-- Tail of `set_simulation_speed` after the speed write (`bot.py` lines
437-440): invalidate the cache, log, reply success. -/
def setspeedFinish (env : Env) (tn : String) (speed : PyF) (evts : List Event) (s : Store) :
    Outcome :=
  let inv := invalidate_cache env s tn
  match inv.exc with
  | some e => handlerExcept "setspeed" (evts ++ inv.events) inv.store e
  | none =>
    { events := evts ++ inv.events ++
        [.logInfo ("Set simulation speed for " ++ tn ++ " to " ++ pyFloatStr speed ++ "x"),
         .reply ("Simulation speed set to `" ++ pyFloatStr speed ++ "x` for `" ++ tn ++ "`.")],
      store := inv.store, exc := none }

/-- Embedding of `set_simulation_speed` (`bot.py` lines 400-444): the
`/setspeed` handler.  Admin check, three-part split, tracking-number
sanitisation, then inside `try`: `float()` parse (a `ValueError` lands in
the `except`), the range check `speed < 0.1 or speed > 10`, the backend
lookup, the `hset` of `sim_speed_multipliers`, cache invalidation, and the
success reply. -/
def set_simulation_speed (env : Env) (uid : Nat) (text : String) (s : Store) : Outcome :=
  if is_admin env uid then
    match pySplit text 2 with
    | _ :: rawTn :: rawSpeed :: _ =>
      match env.sanitizeTracking (env.sanitizeInput (pyStrip rawTn)) with
      | some tn =>
        match pyFloatOfString (env.sanitizeInput (pyStrip rawSpeed)) with
        | none =>
          handlerExcept "setspeed" [] s
            (.valueError ("could not convert string to float: " ++
              env.sanitizeInput (pyStrip rawSpeed)))
        | some speed =>
          if pyLtQ speed tenthFrac || pyGtQ speed tenFrac then
            { events := [.reply "Speed must be between 0.1 and 10.0.",
                         .logWarning ("Invalid speed value: " ++ pyFloatStr speed)],
              store := s, exc := none }
          else
            match get_shipment_details env tn with
            | .error e => handlerExcept "setspeed" [] s e
            | .ok none =>
              { events := [.backendLookup tn,
                           .reply ("Shipment `" ++ tn ++ "` not found."),
                           .logWarning ("Shipment not found: " ++ tn)],
                store := s, exc := none }
            | .ok (some _) =>
              if env.redisAvailable then
                if env.faults.hs = true then
                  handlerExcept "setspeed" [.backendLookup tn] s (.storeError "hset failed")
                else
                  setspeedFinish env tn speed
                    [.backendLookup tn, .hsetOp "sim_speed_multipliers" tn (pyFloatStr speed)]
                    (hset s "sim_speed_multipliers" tn (pyFloatStr speed))
              else
                setspeedFinish env tn speed [.backendLookup tn] s
      | none =>
        { events := [.reply "Invalid tracking number.",
                     .logError ("Invalid tracking number: " ++ rawTn)],
          store := s, exc := none }
    | _ =>
      { events := [.reply "Usage: /setspeed <tracking_number> <speed>\nExample: /setspeed TRK20231010120000ABC123 2.0",
                   .logWarning "Invalid /setspeed command format"],
        store := s, exc := none }
  else
    { events := [.reply "Access denied.",
                 .logWarning ("Access denied for /setspeed by " ++ toString uid)],
      store := s, exc := none }

/-- The `except` block of `handle_set_webhook`. -/
def webhookExcept (evts : List Event) (s : Store) (e : PyExc) : Outcome :=
  { events := evts ++ [.reply ("Error: " ++ e.toMsg),
                       .logError ("Error setting webhook: " ++ e.toMsg)],
    store := s, exc := some (.nameError "Panel") }

/-- Embedding of `handle_set_webhook` (`bot.py` lines 684-709), the
next-step handler registered by the `set_webhook_...` callback: validate
the URL, look the shipment row up in the database, assign the new webhook
URL and commit, invalidate the cache, reply success. -/
def handle_set_webhook (env : Env) (text : String) (tn : String) (s : Store) : Outcome :=
  let url := env.sanitizeInput (pyStrip text)
  if env.validWebhookUrl url then
    if env.faults.query = true then
      webhookExcept [] s (.storeError "database query failed")
    else
      match lookup s.webhooks tn with
      | none =>
        { events := [.dbQuery tn,
                     .reply ("Shipment `" ++ tn ++ "` not found."),
                     .logWarning ("Shipment not found: " ++ tn)],
          store := s, exc := none }
      | some _ =>
        if env.faults.commit = true then
          webhookExcept [.dbQuery tn] s (.storeError "commit failed")
        else
          let s1 : Store := { s with webhooks := setKey s.webhooks tn url }
          let inv := invalidate_cache env s1 tn
          match inv.exc with
          | some e => webhookExcept ([.dbQuery tn, .dbCommit tn url] ++ inv.events) inv.store e
          | none =>
            { events := [.dbQuery tn, .dbCommit tn url] ++ inv.events ++
                [.logInfo ("Set webhook URL for " ++ tn),
                 .reply ("Webhook URL set for `" ++ tn ++ "`.")],
              store := inv.store, exc := none }
  else
    { events := [.reply "Invalid webhook URL.",
                 .logWarning ("Invalid webhook URL: " ++ url)],
      store := s, exc := none }

/-! ### Rate-limited pipelines, as dispatched by the bot -/

/-- The `/start` / `/menu` pipeline: `rate_limit` wrapping `send_menu`. -/
def runMenu (env : Env) (s : Store) (t : Nat) (uid : Nat) : Outcome :=
  rate_limit (fun e st => send_menu e uid st) env s t uid

/-- The `/track` pipeline. -/
def runTrack (env : Env) (s : Store) (t : Nat) (uid : Nat) (text : String) : Outcome :=
  rate_limit (fun e st => track_shipment e uid text st) env s t uid

/-- The `/stop` pipeline. -/
def runStop (env : Env) (s : Store) (t : Nat) (uid : Nat) (text : String) : Outcome :=
  rate_limit (fun e st => stop_simulation e uid text st) env s t uid

/-- The `/continue` pipeline. -/
def runContinue (env : Env) (s : Store) (t : Nat) (uid : Nat) (text : String) : Outcome :=
  rate_limit (fun e st => continue_simulation e uid text st) env s t uid

/-- The `/setspeed` pipeline. -/
def runSetspeed (env : Env) (s : Store) (t : Nat) (uid : Nat) (text : String) : Outcome :=
  rate_limit (fun e st => set_simulation_speed e uid text st) env s t uid

/-! ### Sample data for concrete instantiations -/

/-- A live, unpaused shipment. -/
def pendingShipment : ShipmentRec :=
  { status := "Pending", paused := false, deliveryLocation := "Lagos, NG",
    speedText := "1.0", checkpointsText := "None" }

/-- A completed shipment. -/
def deliveredShipment : ShipmentRec :=
  { status := "Delivered", paused := false, deliveryLocation := "Lagos, NG",
    speedText := "1.0", checkpointsText := "None" }

/-- A concrete environment: client available, `M = 5`, `W = 10`, admin user
5, two shipments, benign sanitisers, no faults. -/
def baseEnv : Env :=
  { redisAvailable := true, rateLimitMax := 5, rateLimitWindow := 10,
    admins := [5],
    shipments := [("TRK1", pendingShipment), ("TRK9", deliveredShipment)],
    sanitizeInput := fun s => s,
    sanitizeTracking := fun s => if s = "" then none else some s,
    validWebhookUrl := fun u => u != "",
    faults := noFaults }

/-- `baseEnv` with the `INCR` call raising. -/
def incrFaultEnv : Env := { baseEnv with faults := { noFaults with incr := true } }

/-- `baseEnv` with the cache `DELETE` call raising. -/
def delFaultEnv : Env := { baseEnv with faults := { noFaults with del := true } }

/-- `baseEnv` with the shipment backend lookup raising. -/
def backendFaultEnv : Env := { baseEnv with faults := { noFaults with backend := true } }

/-- `baseEnv` without a store client (`redis_client is None`). -/
def noRedisEnv : Env := { baseEnv with redisAvailable := false }

/-- A handler that does nothing, used to observe the wrapper itself. -/
def trivialHandler : Handler := fun _ s => { events := [], store := s, exc := none }

/-- A store holding a cache entry and a webhook row for `TRK1`. -/
def cacheStore : Store :=
  { counters := [], hashes := [],
    cache := [("shipment:TRK1", "cached-payload")],
    webhooks := [("TRK1", "https://old.example/hook")] }

/-- A store in which user 5 has already used up its window (`count = 7`). -/
def overLimitStore : Store :=
  { counters := [("rate_limit:5", ⟨7, none⟩)], hashes := [], cache := [], webhooks := [] }

/-- A store in which `TRK1` is marked paused and cached. -/
def pausedStore : Store :=
  { counters := [],
    hashes := [(("paused_simulations", "TRK1"), "true")],
    cache := [("shipment:TRK1", "cached-payload")],
    webhooks := [] }

/-! ### Basic lemmas about the store primitives -/

example : pySplit "/stop TRK1" 1 = ["/stop", "TRK1"] := by decide
example : pySplit "/setspeed TRK1 2.0" 2 = ["/setspeed", "TRK1", "2.0"] := by decide
example : pyFloatOfString "2.0" = some (.num ⟨20, 10⟩) := by decide
example : pyFloatOfString "nan" = some .nan := by decide
example : pyFloatOfString "0.05" = some (.num ⟨5, 100⟩) := by decide
example : pyFloatOfString "  -1e2 " = some (.num ⟨-100, 1⟩) := by decide
example : pyFloatOfString "bogus" = none := by decide
example :
    (runStop baseEnv cacheStore 0 5 "/stop TRK1").events =
      [.incrOp "rate_limit:5", .expireOp "rate_limit:5" 10, .handlerCall,
       .backendLookup "TRK1", .hgetOp "paused_simulations" "TRK1",
       .hsetOp "paused_simulations" "TRK1" "true",
       .deleteOp "shipment:TRK1", .logDebug "Invalidated cache for TRK1",
       .logInfo "Paused simulation for TRK1",
       .reply "Simulation paused for `TRK1`."] := by decide
example : (runStop backendFaultEnv cacheStore 0 5 "/stop TRK1").exc =
    some (.nameError "Panel") := by decide

theorem lookup_setKey_self {α β : Type} [DecidableEq α] (l : List (α × β)) (k : α) (v : β) :
    lookup (setKey l k v) k = some v := by
  induction l with
  | nil => simp [lookup, setKey]
  | cons hd tl ih =>
    obtain ⟨k', v'⟩ := hd
    by_cases h : k' = k
    · simp [lookup, setKey, h]
    · simp [lookup, setKey, h, ih]

theorem lookup_delKey_self {α β : Type} [DecidableEq α] (l : List (α × β)) (k : α) :
    lookup (delKey l k) k = none := by
  induction l with
  | nil => simp [lookup, delKey]
  | cons hd tl ih =>
    obtain ⟨k', v'⟩ := hd
    by_cases h : k' = k
    · simp [delKey, h, ih]
    · simp [lookup, delKey, h, ih]

/-- `liveEntry` after overwriting the key. -/
theorem liveEntry_setKey_self (l : List (String × Counter)) (t : Nat) (key : String)
    (c : Counter) :
    liveEntry (setKey l key c) t key =
      match c.expiresAt with
      | none => some c
      | some e => if t < e then some c else none := by
  simp [liveEntry, lookup_setKey_self]

/-- A live entry is the stored entry. -/
theorem liveEntry_eq_lookup (l : List (String × Counter)) (t : Nat) (key : String)
    (c : Counter) (hl : liveEntry l t key = some c) : lookup l key = some c := by
  unfold liveEntry at hl
  cases hlk : lookup l key with
  | none => rw [hlk] at hl; cases hl
  | some c0 =>
    rw [hlk] at hl
    dsimp only at hl
    cases he0 : c0.expiresAt with
    | none => rw [he0] at hl; injection hl with h; rw [h]
    | some e0 =>
      rw [he0] at hl
      dsimp only at hl
      by_cases ht : t < e0
      · rw [if_pos ht] at hl; injection hl with h; rw [h]
      · rw [if_neg ht] at hl; cases hl

/-- A live entry with an expiry has not yet expired. -/
theorem liveEntry_lt_expiry (l : List (String × Counter)) (t : Nat) (key : String)
    (c : Counter) (hl : liveEntry l t key = some c) (e : Nat) (he : c.expiresAt = some e) :
    t < e := by
  unfold liveEntry at hl
  cases hlk : lookup l key with
  | none => rw [hlk] at hl; cases hl
  | some c0 =>
    rw [hlk] at hl
    dsimp only at hl
    cases he0 : c0.expiresAt with
    | none =>
      rw [he0] at hl; injection hl with h; subst h; rw [he0] at he; cases he
    | some e0 =>
      rw [he0] at hl
      dsimp only at hl
      by_cases ht : t < e0
      · rw [if_pos ht] at hl
        injection hl with h
        subst h
        rw [he0] at he
        injection he with h2
        subst h2
        exact ht
      · rw [if_neg ht] at hl; cases hl

/-- The value of the post-increment count. -/
theorem redisIncr_fst (s : Store) (t : Nat) (key : String) :
    (redisIncr s t key).1 =
      match liveEntry s.counters t key with
      | some c => c.count + 1
      | none => 1 := by
  cases hl : liveEntry s.counters t key <;> simp [redisIncr, hl]

/-- After `INCR`, the key holds the post-increment count, live, with the
previous expiry (if any) preserved. -/
theorem liveEntry_incr (s : Store) (t : Nat) (key : String) :
    liveEntry (redisIncr s t key).2.counters t key =
      some ⟨(redisIncr s t key).1,
        match liveEntry s.counters t key with
        | some c => c.expiresAt
        | none => none⟩ := by
  cases hl : liveEntry s.counters t key with
  | none => simp [redisIncr, hl, liveEntry_setKey_self]
  | some c =>
    simp only [redisIncr, hl]
    rw [liveEntry_setKey_self]
    cases he : c.expiresAt with
    | none => simp
    | some e =>
      have ht := liveEntry_lt_expiry s.counters t key c hl e he
      simp [ht]

/-- After `EXPIRE` of a live key with a positive window, the key holds the
same count and expires at `t + w`. -/
theorem liveEntry_expire (s : Store) (t : Nat) (key : String) (w : Nat) (hw : 0 < w)
    (c : Counter) (hl : liveEntry s.counters t key = some c) :
    liveEntry (redisExpire s t key w).counters t key = some ⟨c.count, some (t + w)⟩ := by
  simp only [redisExpire, hl]
  rw [liveEntry_setKey_self]
  simp [Nat.lt_add_of_pos_right hw]

/-! ### Lemmas about the rate-limit wrapper -/

/-- Below the threshold, the wrapper invokes the handler; the trace is the
counter events, the handler-call marker, the handler's own events, and
possibly a trailing error log (when the handler raised); the resulting store
is the handler's. -/
theorem rateLimitAfter_allowed (h : Handler) (env : Env) (s : Store) (uid count : Nat)
    (evts : List Event) (hle : count ≤ env.rateLimitMax) :
    ∃ tail, (rateLimitAfter h env s uid count evts).events =
        evts ++ .handlerCall :: ((h env s).events ++ tail)
      ∧ (∀ ev, ev ∈ tail → ∃ m, ev = .logError m)
      ∧ (rateLimitAfter h env s uid count evts).store = (h env s).store := by
  unfold rateLimitAfter
  rw [if_neg (Nat.not_lt.mpr hle)]
  cases hrx : (h env s).exc with
  | none =>
    refine ⟨[], ?_, by simp, ?_⟩ <;> simp [hrx]
  | some e =>
    refine ⟨[.logError ("Redis error in rate_limit: " ++ e.toMsg)], ?_, ?_, ?_⟩
    · simp [hrx]
    · intro ev hev
      simp at hev
      exact ⟨_, hev⟩
    · simp [hrx]

/-- Above the threshold, the wrapper rejects: rate-limit reply, warning log
naming the user, handler never invoked, store unchanged. -/
theorem rateLimitAfter_rejected (h : Handler) (env : Env) (s : Store) (uid count : Nat)
    (evts : List Event) (hgt : env.rateLimitMax < count) :
    (rateLimitAfter h env s uid count evts).events =
      evts ++ [.reply "Rate limit exceeded. Please try again later.",
               .logWarning ("Rate limit exceeded for user " ++ toString uid)]
    ∧ (rateLimitAfter h env s uid count evts).store = s
    ∧ (rateLimitAfter h env s uid count evts).exc = none := by
  unfold rateLimitAfter
  rw [if_pos hgt]
  exact ⟨rfl, rfl, rfl⟩

/-- With the client available and neither counter operation raising, the
wrapper is `INCR`, conditional `EXPIRE`, then the threshold check. -/
theorem rate_limit_unfold (h : Handler) (env : Env) (s : Store) (t uid : Nat)
    (hav : env.redisAvailable = true) (hfi : env.faults.incr = false)
    (hfe : env.faults.expire = false) :
    rate_limit h env s t uid =
      if (redisIncr s t ("rate_limit:" ++ toString uid)).1 = 1 then
        rateLimitAfter h env
          (redisExpire (redisIncr s t ("rate_limit:" ++ toString uid)).2 t
            ("rate_limit:" ++ toString uid) env.rateLimitWindow) uid
          (redisIncr s t ("rate_limit:" ++ toString uid)).1
          [.incrOp ("rate_limit:" ++ toString uid),
           .expireOp ("rate_limit:" ++ toString uid) env.rateLimitWindow]
      else
        rateLimitAfter h env (redisIncr s t ("rate_limit:" ++ toString uid)).2 uid
          (redisIncr s t ("rate_limit:" ++ toString uid)).1
          [.incrOp ("rate_limit:" ++ toString uid)] := by
  unfold rate_limit
  simp [hav, hfi, hfe]

/-- The very first event of any wrapped run is the counter `INCR` (client
available, counter ops not raising). -/
theorem wrapper_first_event_incr (h : Handler) (env : Env) (s : Store) (t uid : Nat)
    (hav : env.redisAvailable = true) (hfi : env.faults.incr = false)
    (hfe : env.faults.expire = false) :
    (rate_limit h env s t uid).events.head? =
      some (.incrOp ("rate_limit:" ++ toString uid)) := by
  rw [rate_limit_unfold h env s t uid hav hfi hfe]
  by_cases h1 : (redisIncr s t ("rate_limit:" ++ toString uid)).1 = 1
  · rw [if_pos h1]
    by_cases hth : env.rateLimitMax < (redisIncr s t ("rate_limit:" ++ toString uid)).1
    · obtain ⟨hev, -, -⟩ := rateLimitAfter_rejected h env _ uid _ _ hth
      rw [hev]; rfl
    · obtain ⟨tail, hev, -, -⟩ := rateLimitAfter_allowed h env _ uid _ _ (Nat.le_of_not_lt hth)
      rw [hev]; rfl
  · rw [if_neg h1]
    by_cases hth : env.rateLimitMax < (redisIncr s t ("rate_limit:" ++ toString uid)).1
    · obtain ⟨hev, -, -⟩ := rateLimitAfter_rejected h env _ uid _ _ hth
      rw [hev]; rfl
    · obtain ⟨tail, hev, -, -⟩ := rateLimitAfter_allowed h env _ uid _ _ (Nat.le_of_not_lt hth)
      rw [hev]; rfl

/-- After any wrapped run (client available, counter ops not raising,
positive window, handler leaving the counters alone), the user's counter
holds the post-increment count — also when the request was rejected or the
handler denied it. -/
theorem wrapper_counter_incremented (h : Handler) (env : Env) (s : Store) (t uid : Nat)
    (hav : env.redisAvailable = true) (hfi : env.faults.incr = false)
    (hfe : env.faults.expire = false) (hw : 0 < env.rateLimitWindow)
    (hcount : ∀ st, (h env st).store.counters = st.counters) :
    (liveEntry (rate_limit h env s t uid).store.counters t
       ("rate_limit:" ++ toString uid)).map Counter.count =
      some (redisIncr s t ("rate_limit:" ++ toString uid)).1 := by
  rw [rate_limit_unfold h env s t uid hav hfi hfe]
  by_cases h1 : (redisIncr s t ("rate_limit:" ++ toString uid)).1 = 1
  · rw [if_pos h1]
    have hl := liveEntry_incr s t ("rate_limit:" ++ toString uid)
    have hexp := liveEntry_expire ((redisIncr s t ("rate_limit:" ++ toString uid)).2) t
      ("rate_limit:" ++ toString uid) env.rateLimitWindow hw _ hl
    by_cases hth : env.rateLimitMax < (redisIncr s t ("rate_limit:" ++ toString uid)).1
    · obtain ⟨-, hst, -⟩ := rateLimitAfter_rejected h env _ uid _ _ hth
      rw [hst, hexp]; simp
    · obtain ⟨tail, -, -, hst⟩ := rateLimitAfter_allowed h env _ uid _ _ (Nat.le_of_not_lt hth)
      rw [hst, hcount, hexp]; simp
  · rw [if_neg h1]
    have hl := liveEntry_incr s t ("rate_limit:" ++ toString uid)
    by_cases hth : env.rateLimitMax < (redisIncr s t ("rate_limit:" ++ toString uid)).1
    · obtain ⟨-, hst, -⟩ := rateLimitAfter_rejected h env _ uid _ _ hth
      rw [hst, hl]; simp
    · obtain ⟨tail, -, -, hst⟩ := rateLimitAfter_allowed h env _ uid _ _ (Nat.le_of_not_lt hth)
      rw [hst, hcount, hl]; simp

/-! ### Claim theorems -/

/-- Claim C1, counterexample: with the store client present and the `INCR`
call raising, `rate_limit` does NOT invoke the wrapped handler — the request
is not treated as allowed, refuting the fail-open claim (the failure is
logged, as the event trace shows). -/
theorem rate_limit_store_error_not_fail_open :
    Event.handlerCall ∉ (rate_limit trivialHandler incrFaultEnv emptyStore 0 7).events
    ∧ Event.logError "Redis error in rate_limit: incr failed"
        ∈ (rate_limit trivialHandler incrFaultEnv emptyStore 0 7).events := by
  decide

/-- Claim C1, amended: if a store operation raises during rate limiting the
failure is logged but the wrapped handler is NOT invoked; the wrapper's
`except` block then itself raises `NameError` (the unimported `Panel`)
before reaching its error reply, so the request is dropped.  The request is
treated as allowed without any counting only when the store client itself is
absent (`redis_client` is `None`). -/
theorem rate_limit_store_failure_drops_request (h : Handler) (env : Env) (s : Store)
    (t uid : Nat) :
    (env.redisAvailable = true → env.faults.incr = true →
       (rate_limit h env s t uid).events =
         [.logError "Redis error in rate_limit: incr failed"]
       ∧ (rate_limit h env s t uid).exc = some (.nameError "Panel")
       ∧ Event.handlerCall ∉ (rate_limit h env s t uid).events)
  ∧ (env.redisAvailable = true → env.faults.incr = false → env.faults.expire = true →
       (redisIncr s t ("rate_limit:" ++ toString uid)).1 = 1 →
       (rate_limit h env s t uid).events =
         [.incrOp ("rate_limit:" ++ toString uid),
          .logError "Redis error in rate_limit: expire failed"]
       ∧ (rate_limit h env s t uid).exc = some (.nameError "Panel")
       ∧ Event.handlerCall ∉ (rate_limit h env s t uid).events)
  ∧ (env.redisAvailable = false →
       Event.handlerCall ∈ (rate_limit h env s t uid).events) := by
  refine ⟨?_, ?_, ?_⟩
  · intro hav hfi
    unfold rate_limit
    simp [hav, hfi, PyExc.toMsg]
  · intro hav hfi hfe h1
    unfold rate_limit
    simp [hav, hfi, hfe, h1, PyExc.toMsg]
  · intro hav
    unfold rate_limit
    rw [if_neg (by simp [hav])]
    unfold rateLimitAfter
    rw [if_neg (by exact Nat.not_lt_zero _)]
    cases hrx : (h env s).exc <;> simp [hrx]

/-- Claim C1, witness for the amended theorem at concrete inputs. -/
theorem rate_limit_store_failure_drops_request_witness :
    Event.handlerCall ∉ (rate_limit trivialHandler incrFaultEnv emptyStore 0 3).events
    ∧ Event.handlerCall ∈ (rate_limit trivialHandler noRedisEnv emptyStore 0 3).events :=
  ⟨((rate_limit_store_failure_drops_request trivialHandler incrFaultEnv emptyStore 0 3).1
      (by decide) (by decide)).2.2,
   (rate_limit_store_failure_drops_request trivialHandler noRedisEnv emptyStore 0 3).2.2
      (by decide)⟩

/-- Claim C5 (code bug): `invalidate_cache` is specified never to raise for
any input and any store behaviour, but when the `DELETE` raises, its
`except` block logs the error and then evaluates `Panel`, which `bot.py`
never imports, so a `NameError` escapes to the caller.  Invalidating a key
with no cache entry (the empty store) does succeed without error and
without changing the store. -/
theorem invalidate_cache_raises_on_store_failure :
    (invalidate_cache delFaultEnv emptyStore "TRK1").exc = some (.nameError "Panel")
    ∧ Event.logError "Error invalidating cache for TRK1"
        ∈ (invalidate_cache delFaultEnv emptyStore "TRK1").events
    ∧ (invalidate_cache baseEnv emptyStore "TRK1").exc = none
    ∧ (invalidate_cache baseEnv emptyStore "TRK1").store = emptyStore := by
  decide

/-- Claim C7 (code bug): an unexpected exception inside a handler (here the
backend lookup of `/stop` raising) is caught by the handler's top-level
`except`, which does reply a generic error message and log it — but the
`except` block then evaluates the unimported `Panel`, so a `NameError`
escapes the handler, is caught again by `rate_limit`, whose own `except`
hits `Panel` too, and the exception propagates out of the whole pipeline. -/
theorem handler_exception_escapes_pipeline :
    (runStop backendFaultEnv cacheStore 0 5 "/stop TRK1").exc = some (.nameError "Panel")
    ∧ Event.reply "Error: get_shipment_details failed for TRK1"
        ∈ (runStop backendFaultEnv cacheStore 0 5 "/stop TRK1").events
    ∧ Event.logError "Error in stop command: get_shipment_details failed for TRK1"
        ∈ (runStop backendFaultEnv cacheStore 0 5 "/stop TRK1").events := by
  decide

/-- Claim C3 (confirmed): with the store client available and neither
counter operation raising, a request whose post-increment count is at most
`RATE_LIMIT_MAX` is allowed (the wrapped handler is invoked), and a request
whose count exceeds it is rejected: the handler is not invoked, the user is
sent the rate-limit reply, and a warning log naming the user is emitted. -/
theorem rate_limit_threshold (h : Handler) (env : Env) (s : Store) (t uid : Nat)
    (hav : env.redisAvailable = true) (hfi : env.faults.incr = false)
    (hfe : env.faults.expire = false) :
    ((redisIncr s t ("rate_limit:" ++ toString uid)).1 ≤ env.rateLimitMax →
       Event.handlerCall ∈ (rate_limit h env s t uid).events)
  ∧ (env.rateLimitMax < (redisIncr s t ("rate_limit:" ++ toString uid)).1 →
       Event.handlerCall ∉ (rate_limit h env s t uid).events
     ∧ Event.reply "Rate limit exceeded. Please try again later."
         ∈ (rate_limit h env s t uid).events
     ∧ Event.logWarning ("Rate limit exceeded for user " ++ toString uid)
         ∈ (rate_limit h env s t uid).events) := by
  rw [rate_limit_unfold h env s t uid hav hfi hfe]
  constructor
  · intro hle
    by_cases h1 : (redisIncr s t ("rate_limit:" ++ toString uid)).1 = 1
    · rw [if_pos h1]
      obtain ⟨tail, hev, -, -⟩ := rateLimitAfter_allowed h env _ uid _ _ hle
      rw [hev]; simp
    · rw [if_neg h1]
      obtain ⟨tail, hev, -, -⟩ := rateLimitAfter_allowed h env _ uid _ _ hle
      rw [hev]; simp
  · intro hgt
    by_cases h1 : (redisIncr s t ("rate_limit:" ++ toString uid)).1 = 1
    · rw [if_pos h1]
      obtain ⟨hev, -, -⟩ := rateLimitAfter_rejected h env _ uid _ _ hgt
      rw [hev]; simp
    · rw [if_neg h1]
      obtain ⟨hev, -, -⟩ := rateLimitAfter_rejected h env _ uid _ _ hgt
      rw [hev]; simp

/-- Claim C3, witness: with an empty store the first request of user 5 is
allowed; with user 5 already at count 7 (`overLimitStore`, `M = 5`) the next
request is rejected with the rate-limit reply and the warning log. -/
theorem rate_limit_threshold_witness :
    Event.handlerCall ∈ (rate_limit trivialHandler baseEnv emptyStore 0 5).events
    ∧ (Event.handlerCall ∉ (rate_limit trivialHandler baseEnv overLimitStore 0 5).events
       ∧ Event.reply "Rate limit exceeded. Please try again later."
           ∈ (rate_limit trivialHandler baseEnv overLimitStore 0 5).events
       ∧ Event.logWarning ("Rate limit exceeded for user " ++ toString 5)
           ∈ (rate_limit trivialHandler baseEnv overLimitStore 0 5).events) :=
  ⟨(rate_limit_threshold trivialHandler baseEnv emptyStore 0 5 rfl rfl rfl).1 (by decide),
   (rate_limit_threshold trivialHandler baseEnv overLimitStore 0 5 rfl rfl rfl).2 (by decide)⟩

/-- Claim C4 (confirmed): on each rate-limited call (client available, no
store fault, positive window, for a handler that neither touches the
counters nor emits `expireOp` events — true of every handler in this file):
the per-user counter is incremented; the `EXPIRE` of `RATE_LIMIT_WINDOW`
seconds happens exactly when the post-increment count is 1, in which case
the key afterwards holds count 1 expiring at `t + W`; and a missing or
expired key restarts at 1 with no carry-over. -/
theorem rate_limit_fixed_window (h : Handler) (env : Env) (s : Store) (t uid : Nat)
    (hav : env.redisAvailable = true) (hfi : env.faults.incr = false)
    (hfe : env.faults.expire = false) (hw : 0 < env.rateLimitWindow)
    (hcount : ∀ st, (h env st).store.counters = st.counters)
    (hnoexp : ∀ st k w, Event.expireOp k w ∉ (h env st).events) :
    ((redisIncr s t ("rate_limit:" ++ toString uid)).1 =
       match liveEntry s.counters t ("rate_limit:" ++ toString uid) with
       | some c => c.count + 1
       | none => 1)
  ∧ ((Event.expireOp ("rate_limit:" ++ toString uid) env.rateLimitWindow
        ∈ (rate_limit h env s t uid).events)
     ↔ (redisIncr s t ("rate_limit:" ++ toString uid)).1 = 1)
  ∧ (liveEntry s.counters t ("rate_limit:" ++ toString uid) = none →
       (redisIncr s t ("rate_limit:" ++ toString uid)).1 = 1)
  ∧ ((liveEntry (rate_limit h env s t uid).store.counters t
        ("rate_limit:" ++ toString uid)).map Counter.count =
       some (redisIncr s t ("rate_limit:" ++ toString uid)).1)
  ∧ ((redisIncr s t ("rate_limit:" ++ toString uid)).1 = 1 →
       liveEntry (rate_limit h env s t uid).store.counters t
           ("rate_limit:" ++ toString uid) =
         some ⟨1, some (t + env.rateLimitWindow)⟩) := by
  have hunfold := rate_limit_unfold h env s t uid hav hfi hfe
  refine ⟨redisIncr_fst s t _, ?_, ?_, ?_, ?_⟩
  · -- EXPIRE happens exactly on a fresh window
    rw [hunfold]
    by_cases h1 : (redisIncr s t ("rate_limit:" ++ toString uid)).1 = 1
    · rw [if_pos h1]
      refine iff_of_true ?_ h1
      by_cases hth : env.rateLimitMax < (redisIncr s t ("rate_limit:" ++ toString uid)).1
      · obtain ⟨hev, -, -⟩ := rateLimitAfter_rejected h env _ uid _ _ hth
        rw [hev]; simp
      · obtain ⟨tail, hev, -, -⟩ :=
          rateLimitAfter_allowed h env _ uid _ _ (Nat.le_of_not_lt hth)
        rw [hev]; simp
    · rw [if_neg h1]
      refine iff_of_false ?_ h1
      by_cases hth : env.rateLimitMax < (redisIncr s t ("rate_limit:" ++ toString uid)).1
      · obtain ⟨hev, -, -⟩ := rateLimitAfter_rejected h env _ uid _ _ hth
        rw [hev]
        intro hmem
        simp at hmem
      · obtain ⟨tail, hev, htail, -⟩ :=
          rateLimitAfter_allowed h env _ uid _ _ (Nat.le_of_not_lt hth)
        rw [hev]
        intro hmem
        simp only [List.mem_append, List.mem_cons, List.mem_singleton] at hmem
        rcases hmem with hmem | hmem | hmem | hmem
        · simp at hmem
        · simp at hmem
        · exact hnoexp _ _ _ hmem
        · obtain ⟨m, hm⟩ := htail _ hmem
          simp at hm
  · -- fresh window restarts at 1
    intro h0
    rw [redisIncr_fst, h0]
  · -- the key holds the post-increment count afterwards
    rw [hunfold]
    by_cases h1 : (redisIncr s t ("rate_limit:" ++ toString uid)).1 = 1
    · rw [if_pos h1]
      have hl := liveEntry_incr s t ("rate_limit:" ++ toString uid)
      have hexp := liveEntry_expire ((redisIncr s t ("rate_limit:" ++ toString uid)).2) t
        ("rate_limit:" ++ toString uid) env.rateLimitWindow hw _ hl
      by_cases hth : env.rateLimitMax < (redisIncr s t ("rate_limit:" ++ toString uid)).1
      · obtain ⟨-, hst, -⟩ := rateLimitAfter_rejected h env _ uid _ _ hth
        rw [hst, hexp]; simp
      · obtain ⟨tail, -, -, hst⟩ :=
          rateLimitAfter_allowed h env _ uid _ _ (Nat.le_of_not_lt hth)
        rw [hst, hcount, hexp]; simp
    · rw [if_neg h1]
      have hl := liveEntry_incr s t ("rate_limit:" ++ toString uid)
      by_cases hth : env.rateLimitMax < (redisIncr s t ("rate_limit:" ++ toString uid)).1
      · obtain ⟨-, hst, -⟩ := rateLimitAfter_rejected h env _ uid _ _ hth
        rw [hst, hl]; simp
      · obtain ⟨tail, -, -, hst⟩ :=
          rateLimitAfter_allowed h env _ uid _ _ (Nat.le_of_not_lt hth)
        rw [hst, hcount, hl]; simp
  · -- a fresh window expires at t + W
    intro h1
    rw [hunfold, if_pos h1]
    have hl := liveEntry_incr s t ("rate_limit:" ++ toString uid)
    have hexp := liveEntry_expire ((redisIncr s t ("rate_limit:" ++ toString uid)).2) t
      ("rate_limit:" ++ toString uid) env.rateLimitWindow hw _ hl
    by_cases hth : env.rateLimitMax < (redisIncr s t ("rate_limit:" ++ toString uid)).1
    · obtain ⟨-, hst, -⟩ := rateLimitAfter_rejected h env _ uid _ _ hth
      rw [hst, hexp]
      simp [h1]
    · obtain ⟨tail, -, -, hst⟩ :=
        rateLimitAfter_allowed h env _ uid _ _ (Nat.le_of_not_lt hth)
      rw [hst, hcount, hexp]
      simp [h1]

/-- Claim C4, witness: the first request of user 5 on the empty store sets
the window (`EXPIRE` emitted) and leaves the key at count 1 expiring at
`0 + 10`. -/
theorem rate_limit_fixed_window_witness :
    (Event.expireOp "rate_limit:5" baseEnv.rateLimitWindow
        ∈ (rate_limit trivialHandler baseEnv emptyStore 0 5).events)
    ∧ liveEntry (rate_limit trivialHandler baseEnv emptyStore 0 5).store.counters 0
        "rate_limit:5" = some ⟨1, some (0 + baseEnv.rateLimitWindow)⟩ := by
  have h := rate_limit_fixed_window trivialHandler baseEnv emptyStore 0 5 rfl rfl rfl
    (by decide) (fun st => rfl) (by intro st k w; simp [trivialHandler])
  exact ⟨h.2.1.mpr (by decide), h.2.2.2.2 (by decide)⟩

/-- Claim C6 (confirmed): a non-admin user invoking any of the embedded
privileged commands (`/start`-`/menu`, `/track`, `/stop`, `/continue`,
`/setspeed`) gets exactly the denial reply and a warning log: the outcome
equality shows no backend call is made (no event other than the denial and
the log) and no state is changed (the store is returned untouched). -/
theorem nonadmin_denied_no_state_change (env : Env) (uid : Nat) (text : String) (s : Store)
    (hadm : is_admin env uid = false) :
    send_menu env uid s =
      { events := [.reply "Access denied.",
                   .logWarning ("Access denied for user " ++ toString uid)],
        store := s, exc := none }
  ∧ track_shipment env uid text s =
      { events := [.reply "Access denied.",
                   .logWarning ("Access denied for /track by " ++ toString uid)],
        store := s, exc := none }
  ∧ stop_simulation env uid text s =
      { events := [.reply "Access denied.",
                   .logWarning ("Access denied for /stop by " ++ toString uid)],
        store := s, exc := none }
  ∧ continue_simulation env uid text s =
      { events := [.reply "Access denied.",
                   .logWarning ("Access denied for /continue by " ++ toString uid)],
        store := s, exc := none }
  ∧ set_simulation_speed env uid text s =
      { events := [.reply "Access denied.",
                   .logWarning ("Access denied for /setspeed by " ++ toString uid)],
        store := s, exc := none } := by
  refine ⟨?_, ?_, ?_, ?_, ?_⟩ <;>
    simp [send_menu, track_shipment, stop_simulation, continue_simulation,
      set_simulation_speed, hadm]

/-- Claim C6, witness: the non-admin user 9 is denied by `/track` with the
store untouched. -/
theorem nonadmin_denied_no_state_change_witness :
    track_shipment baseEnv 9 "/track TRK1" cacheStore =
      { events := [.reply "Access denied.",
                   .logWarning ("Access denied for /track by " ++ toString 9)],
        store := cacheStore, exc := none } :=
  (nonadmin_denied_no_state_change baseEnv 9 "/track TRK1" cacheStore (by decide)).2.1

/-- The denominator produced by `applyExp` is positive. -/
theorem applyExp_den_pos (m flen : Nat) (e : Int) : 0 < (applyExp m flen e).d := by
  cases e with
  | ofNat k => simp [applyExp]
  | negSucc k => simp [applyExp]

/-- Every fraction the numeric parser produces has a positive denominator. -/
theorem parseNumericBody_den_pos (cs : List Char) (f : Frac)
    (h : parseNumericBody cs = some f) : 0 < f.d := by
  unfold parseNumericBody at h
  dsimp only at h
  split at h
  · split at h
    · cases h
    · split at h
      · injection h with h
        subst h
        exact applyExp_den_pos _ _ _
      · cases h
  · split at h
    · cases h
    · split at h
      · injection h with h
        subst h
        exact applyExp_den_pos _ _ _
      · cases h

/-- Every fraction `parseFloatBody` produces has a positive denominator. -/
theorem parseFloatBody_den_pos (cs : List Char) (neg : Bool) (f : Frac)
    (h : parseFloatBody cs neg = some (.num f)) : 0 < f.d := by
  unfold parseFloatBody at h
  split at h
  · simp at h
  · split at h
    · simp at h
    · split at h
      · rename_i f0 hf0
        injection h with h1
        injection h1 with h2
        have hd := parseNumericBody_den_pos cs f0 hf0
        cases neg
        · simp at h2
          rw [← h2]
          exact hd
        · simp at h2
          rw [← h2]
          exact hd
      · cases h

/-- Every fraction `float()` produces has a positive denominator. -/
theorem pyFloatOfString_den_pos (s : String) (f : Frac)
    (h : pyFloatOfString s = some (.num f)) : 0 < f.d := by
  unfold pyFloatOfString at h
  split at h
  · exact parseFloatBody_den_pos _ _ _ h
  · exact parseFloatBody_den_pos _ _ _ h
  · exact parseFloatBody_den_pos _ _ _ h

/-- The cross-multiplied `<` test agrees with the rational values. -/
theorem pyLtQ_toRat (f c : Frac) (hf : 0 < f.d) (hc : 0 < c.d) :
    (pyLtQ (.num f) c = true) ↔ f.toRat < c.toRat := by
  unfold pyLtQ Frac.toRat
  rw [decide_eq_true_eq]
  rw [div_lt_div_iff (by exact_mod_cast hf) (by exact_mod_cast hc)]
  constructor
  · intro hlt; exact_mod_cast hlt
  · intro hlt; exact_mod_cast hlt

/-- The cross-multiplied `>` test agrees with the rational values. -/
theorem pyGtQ_toRat (f c : Frac) (hf : 0 < f.d) (hc : 0 < c.d) :
    (pyGtQ (.num f) c = true) ↔ c.toRat < f.toRat := by
  unfold pyGtQ Frac.toRat
  rw [decide_eq_true_eq]
  rw [div_lt_div_iff (by exact_mod_cast hc) (by exact_mod_cast hf)]
  constructor
  · intro hlt; exact_mod_cast hlt
  · intro hlt; exact_mod_cast hlt

/-- Value of the `0.1` bound. -/
theorem tenthFrac_toRat : tenthFrac.toRat = 1 / 10 := by
  norm_num [Frac.toRat, tenthFrac]

/-- Value of the `10` bound. -/
theorem tenFrac_toRat : tenFrac.toRat = 10 := by
  norm_num [Frac.toRat, tenFrac]

/-- Claim C8 (confirmed): an admin `/setspeed` request whose speed argument
parses to a (finite) number outside the range `[0.1, 10]` is rejected with
the constraint restated and no state change: the outcome is exactly the
rejection reply plus its warning log, with the store untouched (in
particular no `hset` of the multiplier and no cache invalidation). -/
theorem setspeed_out_of_range_rejected (env : Env) (uid : Nat) (text : String) (s : Store)
    (cmdTok rawTn rawSpeed tn : String) (f : Frac)
    (hadm : is_admin env uid = true)
    (hsplit : pySplit text 2 = [cmdTok, rawTn, rawSpeed])
    (htn : env.sanitizeTracking (env.sanitizeInput (pyStrip rawTn)) = some tn)
    (hparse : pyFloatOfString (env.sanitizeInput (pyStrip rawSpeed)) = some (.num f))
    (hout : f.toRat < 1 / 10 ∨ 10 < f.toRat) :
    set_simulation_speed env uid text s =
      { events := [.reply "Speed must be between 0.1 and 10.0.",
                   .logWarning ("Invalid speed value: " ++ pyFloatStr (.num f))],
        store := s, exc := none } := by
  have hd := pyFloatOfString_den_pos _ f hparse
  have hcond : (pyLtQ (.num f) tenthFrac || pyGtQ (.num f) tenFrac) = true := by
    rw [Bool.or_eq_true]
    rcases hout with hlt | hgt
    · left
      rw [pyLtQ_toRat f tenthFrac hd (by decide), tenthFrac_toRat]
      exact hlt
    · right
      rw [pyGtQ_toRat f tenFrac hd (by decide), tenFrac_toRat]
      exact hgt
  simp [set_simulation_speed, hadm, hsplit, htn, hparse, hcond]

/-- Claim C8, witness: admin user 5 sends `/setspeed TRK1 50`; 50 is out of
range, the rejection is sent and nothing changes. -/
theorem setspeed_out_of_range_rejected_witness :
    set_simulation_speed baseEnv 5 "/setspeed TRK1 50" emptyStore =
      { events := [.reply "Speed must be between 0.1 and 10.0.",
                   .logWarning ("Invalid speed value: " ++ pyFloatStr (.num ⟨50, 1⟩))],
        store := emptyStore, exc := none } :=
  setspeed_out_of_range_rejected baseEnv 5 "/setspeed TRK1 50" emptyStore
    "/setspeed" "TRK1" "50" "TRK1" ⟨50, 1⟩ (by decide) (by decide) (by decide) (by decide)
    (Or.inr (by norm_num [Frac.toRat]))

/-- Claim C2 (confirmed): each of the four shipment mutations that reports
success to the requester — pause via `/stop`, resume via `/continue`, speed
change via `/setspeed`, webhook change via the `set_webhook` flow —
deletes the cache key `shipment:<tn>` strictly before the success reply is
sent, and the key is absent from the cache immediately afterwards.  Each
conjunct quantifies over the preconditions under which that handler reports
success (client available, no store fault, and the handler's own guards
passing). -/
theorem mutation_invalidates_cache_before_success_reply (env : Env)
    (hav : env.redisAvailable = true) (hf : env.faults = noFaults) :
    (∀ (s : Store) (uid : Nat) (text cmdTok rawArg tn : String) (sh : ShipmentRec),
       is_admin env uid = true →
       pySplit text 1 = [cmdTok, rawArg] →
       env.sanitizeTracking (env.sanitizeInput (pyStrip rawArg)) = some tn →
       lookup env.shipments tn = some sh →
       sh.status ≠ "Delivered" → sh.status ≠ "Returned" →
       hget s "paused_simulations" tn ≠ some "true" →
       (∃ pre mid post,
          (stop_simulation env uid text s).events =
            pre ++ .deleteOp ("shipment:" ++ tn) :: mid ++
              .reply ("Simulation paused for `" ++ tn ++ "`.") :: post)
       ∧ lookup (stop_simulation env uid text s).store.cache ("shipment:" ++ tn) = none)
  ∧ (∀ (s : Store) (uid : Nat) (text cmdTok rawArg tn : String) (sh : ShipmentRec),
       is_admin env uid = true →
       pySplit text 1 = [cmdTok, rawArg] →
       env.sanitizeTracking (env.sanitizeInput (pyStrip rawArg)) = some tn →
       hget s "paused_simulations" tn = some "true" →
       lookup env.shipments tn = some sh →
       sh.status ≠ "Delivered" → sh.status ≠ "Returned" →
       (∃ pre mid post,
          (continue_simulation env uid text s).events =
            pre ++ .deleteOp ("shipment:" ++ tn) :: mid ++
              .reply ("Simulation resumed for `" ++ tn ++ "`.") :: post)
       ∧ lookup (continue_simulation env uid text s).store.cache ("shipment:" ++ tn) = none)
  ∧ (∀ (s : Store) (uid : Nat) (text cmdTok rawTn rawSpeed tn : String) (speed : PyF)
       (sh : ShipmentRec),
       is_admin env uid = true →
       pySplit text 2 = [cmdTok, rawTn, rawSpeed] →
       env.sanitizeTracking (env.sanitizeInput (pyStrip rawTn)) = some tn →
       pyFloatOfString (env.sanitizeInput (pyStrip rawSpeed)) = some speed →
       (pyLtQ speed tenthFrac || pyGtQ speed tenFrac) = false →
       lookup env.shipments tn = some sh →
       (∃ pre mid post,
          (set_simulation_speed env uid text s).events =
            pre ++ .deleteOp ("shipment:" ++ tn) :: mid ++
              .reply ("Simulation speed set to `" ++ pyFloatStr speed ++ "x` for `" ++
                tn ++ "`.") :: post)
       ∧ lookup (set_simulation_speed env uid text s).store.cache ("shipment:" ++ tn) = none)
  ∧ (∀ (s : Store) (text tn oldUrl : String),
       env.validWebhookUrl (env.sanitizeInput (pyStrip text)) = true →
       lookup s.webhooks tn = some oldUrl →
       (∃ pre mid post,
          (handle_set_webhook env text tn s).events =
            pre ++ .deleteOp ("shipment:" ++ tn) :: mid ++
              .reply ("Webhook URL set for `" ++ tn ++ "`.") :: post)
       ∧ lookup (handle_set_webhook env text tn s).store.cache ("shipment:" ++ tn) = none) := by
  refine ⟨?_, ?_, ?_, ?_⟩
  · intro s uid text cmdTok rawArg tn sh hadm hsplit htn hship hD hR hpause
    have hrun : stop_simulation env uid text s =
        { events := [.backendLookup tn, .hgetOp "paused_simulations" tn,
                     .hsetOp "paused_simulations" tn "true",
                     .deleteOp ("shipment:" ++ tn),
                     .logDebug ("Invalidated cache for " ++ tn),
                     .logInfo ("Paused simulation for " ++ tn),
                     .reply ("Simulation paused for `" ++ tn ++ "`.")],
          store := redisDelete (hset s "paused_simulations" tn "true") ("shipment:" ++ tn),
          exc := none } := by
      simp [stop_simulation, get_shipment_details, stopWrite, stopFinish, invalidate_cache,
        hadm, hsplit, htn, hship, hav, hf, noFaults, hD, hR, hpause]
    refine ⟨⟨[.backendLookup tn, .hgetOp "paused_simulations" tn,
             .hsetOp "paused_simulations" tn "true"],
            [.logDebug ("Invalidated cache for " ++ tn),
             .logInfo ("Paused simulation for " ++ tn)], [], ?_⟩, ?_⟩
    · rw [hrun]; rfl
    · rw [hrun]
      exact lookup_delKey_self _ _
  · intro s uid text cmdTok rawArg tn sh hadm hsplit htn hpause hship hD hR
    have hrun : continue_simulation env uid text s =
        { events := [.hgetOp "paused_simulations" tn, .backendLookup tn,
                     .hdelOp "paused_simulations" tn,
                     .deleteOp ("shipment:" ++ tn),
                     .logDebug ("Invalidated cache for " ++ tn),
                     .logInfo ("Resumed simulation for " ++ tn),
                     .reply ("Simulation resumed for `" ++ tn ++ "`.")],
          store := redisDelete (hdel s "paused_simulations" tn) ("shipment:" ++ tn),
          exc := none } := by
      simp [continue_simulation, continueLookup, continueFinish, get_shipment_details,
        invalidate_cache, hadm, hsplit, htn, hship, hav, hf, noFaults, hD, hR, hpause]
    refine ⟨⟨[.hgetOp "paused_simulations" tn, .backendLookup tn,
             .hdelOp "paused_simulations" tn],
            [.logDebug ("Invalidated cache for " ++ tn),
             .logInfo ("Resumed simulation for " ++ tn)], [], ?_⟩, ?_⟩
    · rw [hrun]; rfl
    · rw [hrun]
      exact lookup_delKey_self _ _
  · intro s uid text cmdTok rawTn rawSpeed tn speed sh hadm hsplit htn hparse hrange hship
    have hrun : set_simulation_speed env uid text s =
        { events := [.backendLookup tn,
                     .hsetOp "sim_speed_multipliers" tn (pyFloatStr speed),
                     .deleteOp ("shipment:" ++ tn),
                     .logDebug ("Invalidated cache for " ++ tn),
                     .logInfo ("Set simulation speed for " ++ tn ++ " to " ++
                       pyFloatStr speed ++ "x"),
                     .reply ("Simulation speed set to `" ++ pyFloatStr speed ++ "x` for `" ++
                       tn ++ "`.")],
          store := redisDelete (hset s "sim_speed_multipliers" tn (pyFloatStr speed))
            ("shipment:" ++ tn),
          exc := none } := by
      simp [set_simulation_speed, setspeedFinish, get_shipment_details, invalidate_cache,
        hadm, hsplit, htn, hparse, hrange, hship, hav, hf, noFaults]
    refine ⟨⟨[.backendLookup tn, .hsetOp "sim_speed_multipliers" tn (pyFloatStr speed)],
            [.logDebug ("Invalidated cache for " ++ tn),
             .logInfo ("Set simulation speed for " ++ tn ++ " to " ++ pyFloatStr speed ++ "x")],
            [], ?_⟩, ?_⟩
    · rw [hrun]; rfl
    · rw [hrun]
      exact lookup_delKey_self _ _
  · intro s text tn oldUrl hurl hrow
    have hrun : handle_set_webhook env text tn s =
        { events := [.dbQuery tn, .dbCommit tn (env.sanitizeInput (pyStrip text)),
                     .deleteOp ("shipment:" ++ tn),
                     .logDebug ("Invalidated cache for " ++ tn),
                     .logInfo ("Set webhook URL for " ++ tn),
                     .reply ("Webhook URL set for `" ++ tn ++ "`.")],
          store := redisDelete
            { s with webhooks := setKey s.webhooks tn (env.sanitizeInput (pyStrip text)) }
            ("shipment:" ++ tn),
          exc := none } := by
      simp [handle_set_webhook, invalidate_cache, hurl, hrow, hav, hf, noFaults]
    refine ⟨⟨[.dbQuery tn, .dbCommit tn (env.sanitizeInput (pyStrip text))],
            [.logDebug ("Invalidated cache for " ++ tn),
             .logInfo ("Set webhook URL for " ++ tn)], [], ?_⟩, ?_⟩
    · rw [hrun]; rfl
    · rw [hrun]
      exact lookup_delKey_self _ _

/-- Claim C2, witness: admin user 5 pauses cached shipment `TRK1`; the
deletion of `shipment:TRK1` precedes the success reply and the key is gone
afterwards. -/
theorem mutation_invalidates_cache_before_success_reply_witness :
    (∃ pre mid post,
       (stop_simulation baseEnv 5 "/stop TRK1" cacheStore).events =
         pre ++ .deleteOp ("shipment:" ++ "TRK1") :: mid ++
           .reply ("Simulation paused for `" ++ "TRK1" ++ "`.") :: post)
    ∧ lookup (stop_simulation baseEnv 5 "/stop TRK1" cacheStore).store.cache
        ("shipment:" ++ "TRK1") = none :=
  (mutation_invalidates_cache_before_success_reply baseEnv rfl rfl).1
    cacheStore 5 "/stop TRK1" "/stop" "TRK1" "TRK1" pendingShipment
    (by decide) (by decide) (by decide) (by decide) (by decide) (by decide) (by decide)

/-- Claim C10 (confirmed): `/stop` never marks a completed shipment as
paused.  For an admin request with a well-formed tracking number (client
available, no fault): an unknown shipment, a `Delivered`/`Returned`
shipment, and an already-paused shipment each produce a notice reply and
leave the store — `paused_simulations` hash and cache included — untouched;
and the `"true"` flag is written to `paused_simulations` exactly when the
shipment exists, is not completed and is not already paused. -/
theorem stop_never_pauses_completed (env : Env) (uid : Nat) (text : String) (s : Store)
    (cmdTok rawArg tn : String)
    (hadm : is_admin env uid = true)
    (hsplit : pySplit text 1 = [cmdTok, rawArg])
    (htn : env.sanitizeTracking (env.sanitizeInput (pyStrip rawArg)) = some tn)
    (hav : env.redisAvailable = true) (hf : env.faults = noFaults) :
    (lookup env.shipments tn = none →
       (stop_simulation env uid text s).store = s
       ∧ Event.reply ("Shipment `" ++ tn ++ "` not found.")
           ∈ (stop_simulation env uid text s).events)
  ∧ (∀ sh, lookup env.shipments tn = some sh →
       (sh.status = "Delivered" ∨ sh.status = "Returned") →
       (stop_simulation env uid text s).store = s
       ∧ Event.reply ("Shipment `" ++ tn ++ "` is already completed (`" ++ sh.status ++ "`).")
           ∈ (stop_simulation env uid text s).events)
  ∧ (∀ sh, lookup env.shipments tn = some sh →
       ¬(sh.status = "Delivered" ∨ sh.status = "Returned") →
       hget s "paused_simulations" tn = some "true" →
       (stop_simulation env uid text s).store = s
       ∧ Event.reply ("Simulation for `" ++ tn ++ "` is already paused.")
           ∈ (stop_simulation env uid text s).events)
  ∧ ((Event.hsetOp "paused_simulations" tn "true" ∈ (stop_simulation env uid text s).events)
     ↔ ∃ sh, lookup env.shipments tn = some sh
         ∧ ¬(sh.status = "Delivered" ∨ sh.status = "Returned")
         ∧ hget s "paused_simulations" tn ≠ some "true") := by
  refine ⟨?_, ?_, ?_, ?_⟩
  · intro hship
    have hrun : stop_simulation env uid text s =
        { events := [.backendLookup tn, .reply ("Shipment `" ++ tn ++ "` not found."),
                     .logWarning ("Shipment not found: " ++ tn)],
          store := s, exc := none } := by
      simp [stop_simulation, get_shipment_details, hadm, hsplit, htn, hship, hf, noFaults]
    rw [hrun]
    exact ⟨rfl, by simp⟩
  · intro sh hship hc
    rcases hc with hc | hc
    · have hrun : stop_simulation env uid text s =
          { events := [.backendLookup tn,
                       .reply ("Shipment `" ++ tn ++ "` is already completed (`" ++
                         sh.status ++ "`)."),
                       .logWarning ("Cannot pause completed shipment: " ++ tn)],
            store := s, exc := none } := by
        simp [stop_simulation, get_shipment_details, hadm, hsplit, htn, hship, hf, noFaults, hc]
      rw [hrun]
      exact ⟨rfl, by simp⟩
    · have hrun : stop_simulation env uid text s =
          { events := [.backendLookup tn,
                       .reply ("Shipment `" ++ tn ++ "` is already completed (`" ++
                         sh.status ++ "`)."),
                       .logWarning ("Cannot pause completed shipment: " ++ tn)],
            store := s, exc := none } := by
        simp [stop_simulation, get_shipment_details, hadm, hsplit, htn, hship, hf, noFaults, hc]
      rw [hrun]
      exact ⟨rfl, by simp⟩
  · intro sh hship hnc hpause
    have hrun : stop_simulation env uid text s =
        { events := [.backendLookup tn, .hgetOp "paused_simulations" tn,
                     .reply ("Simulation for `" ++ tn ++ "` is already paused."),
                     .logWarning ("Simulation already paused: " ++ tn)],
          store := s, exc := none } := by
      simp [stop_simulation, get_shipment_details, hadm, hsplit, htn, hship, hav, hf,
        noFaults, hnc, hpause]
    rw [hrun]
    exact ⟨rfl, by simp⟩
  · constructor
    · intro hmem
      cases hship : lookup env.shipments tn with
      | none =>
        have hrun : stop_simulation env uid text s =
            { events := [.backendLookup tn, .reply ("Shipment `" ++ tn ++ "` not found."),
                         .logWarning ("Shipment not found: " ++ tn)],
              store := s, exc := none } := by
          simp [stop_simulation, get_shipment_details, hadm, hsplit, htn, hship, hf, noFaults]
        rw [hrun] at hmem
        simp at hmem
      | some sh =>
        by_cases hc : sh.status = "Delivered" ∨ sh.status = "Returned"
        · exfalso
          rcases hc with hc | hc
          · have hrun : stop_simulation env uid text s =
                { events := [.backendLookup tn,
                             .reply ("Shipment `" ++ tn ++ "` is already completed (`" ++
                               sh.status ++ "`)."),
                             .logWarning ("Cannot pause completed shipment: " ++ tn)],
                  store := s, exc := none } := by
              simp [stop_simulation, get_shipment_details, hadm, hsplit, htn, hship, hf,
                noFaults, hc]
            rw [hrun] at hmem
            simp at hmem
          · have hrun : stop_simulation env uid text s =
                { events := [.backendLookup tn,
                             .reply ("Shipment `" ++ tn ++ "` is already completed (`" ++
                               sh.status ++ "`)."),
                             .logWarning ("Cannot pause completed shipment: " ++ tn)],
                  store := s, exc := none } := by
              simp [stop_simulation, get_shipment_details, hadm, hsplit, htn, hship, hf,
                noFaults, hc]
            rw [hrun] at hmem
            simp at hmem
        · by_cases hp : hget s "paused_simulations" tn = some "true"
          · exfalso
            have hrun : stop_simulation env uid text s =
                { events := [.backendLookup tn, .hgetOp "paused_simulations" tn,
                             .reply ("Simulation for `" ++ tn ++ "` is already paused."),
                             .logWarning ("Simulation already paused: " ++ tn)],
                  store := s, exc := none } := by
              simp [stop_simulation, get_shipment_details, hadm, hsplit, htn, hship, hav,
                hf, noFaults, hc, hp]
            rw [hrun] at hmem
            simp at hmem
          · exact ⟨sh, rfl, hc, hp⟩
    · rintro ⟨sh, hship, hc, hp⟩
      have hD : sh.status ≠ "Delivered" := fun h0 => hc (Or.inl h0)
      have hR : sh.status ≠ "Returned" := fun h0 => hc (Or.inr h0)
      have hrun : stop_simulation env uid text s =
          { events := [.backendLookup tn, .hgetOp "paused_simulations" tn,
                       .hsetOp "paused_simulations" tn "true",
                       .deleteOp ("shipment:" ++ tn),
                       .logDebug ("Invalidated cache for " ++ tn),
                       .logInfo ("Paused simulation for " ++ tn),
                       .reply ("Simulation paused for `" ++ tn ++ "`.")],
            store := redisDelete (hset s "paused_simulations" tn "true") ("shipment:" ++ tn),
            exc := none } := by
        simp [stop_simulation, get_shipment_details, stopWrite, stopFinish, invalidate_cache,
          hadm, hsplit, htn, hship, hav, hf, noFaults, hD, hR, hp]
      rw [hrun]
      simp

/-- Claim C10, witness: `/stop TRK9` on the `Delivered` shipment `TRK9`
leaves the store untouched and replies the completed notice. -/
theorem stop_never_pauses_completed_witness :
    (stop_simulation baseEnv 5 "/stop TRK9" pausedStore).store = pausedStore
    ∧ Event.reply ("Shipment `" ++ "TRK9" ++ "` is already completed (`" ++
        deliveredShipment.status ++ "`).")
        ∈ (stop_simulation baseEnv 5 "/stop TRK9" pausedStore).events :=
  (stop_never_pauses_completed baseEnv 5 "/stop TRK9" pausedStore "/stop" "TRK9" "TRK9"
      (by decide) (by decide) (by decide) rfl rfl).2.1 deliveredShipment
      (by decide) (Or.inl (by decide))

/-- Claim C9 (confirmed): on the `/stop` pipeline (client available, no
counter fault, positive window) the rate-limit counter is consumed before
any authorisation or validation work: the first event of every run is the
`INCR`; a non-admin user's denied request still leaves the incremented
count behind; when the count exceeds the threshold the denial never happens
(the user gets the rate-limit reply instead); and an admin's malformed
request (missing argument) likewise gets its usage reply only after the
count was consumed. -/
theorem rate_limit_counter_consumed_before_auth (env : Env) (s : Store) (t uid : Nat)
    (text : String)
    (hav : env.redisAvailable = true) (hfi : env.faults.incr = false)
    (hfe : env.faults.expire = false) (hw : 0 < env.rateLimitWindow)
    (hadm : is_admin env uid = false) :
    (runStop env s t uid text).events.head? =
      some (.incrOp ("rate_limit:" ++ toString uid))
  ∧ (liveEntry (runStop env s t uid text).store.counters t
       ("rate_limit:" ++ toString uid)).map Counter.count =
      some (redisIncr s t ("rate_limit:" ++ toString uid)).1
  ∧ ((redisIncr s t ("rate_limit:" ++ toString uid)).1 ≤ env.rateLimitMax →
       Event.reply "Access denied." ∈ (runStop env s t uid text).events)
  ∧ (env.rateLimitMax < (redisIncr s t ("rate_limit:" ++ toString uid)).1 →
       Event.reply "Access denied." ∉ (runStop env s t uid text).events
       ∧ Event.reply "Rate limit exceeded. Please try again later."
           ∈ (runStop env s t uid text).events)
  ∧ (∀ (uid2 : Nat) (text2 cmdTok : String), is_admin env uid2 = true →
       pySplit text2 1 = [cmdTok] →
       (redisIncr s t ("rate_limit:" ++ toString uid2)).1 ≤ env.rateLimitMax →
       Event.reply "Usage: /stop <tracking_number>\nExample: /stop TRK20231010120000ABC123"
           ∈ (runStop env s t uid2 text2).events
       ∧ (liveEntry (runStop env s t uid2 text2).store.counters t
            ("rate_limit:" ++ toString uid2)).map Counter.count =
           some (redisIncr s t ("rate_limit:" ++ toString uid2)).1) := by
  have hde : ∀ st : Store, stop_simulation env uid text st =
      { events := [.reply "Access denied.",
                   .logWarning ("Access denied for /stop by " ++ toString uid)],
        store := st, exc := none } := by
    intro st
    simp [stop_simulation, hadm]
  have hcount : ∀ st : Store, (stop_simulation env uid text st).store.counters = st.counters := by
    intro st
    rw [hde st]
  unfold runStop
  refine ⟨?_, ?_, ?_, ?_, ?_⟩
  · exact wrapper_first_event_incr _ env s t uid hav hfi hfe
  · exact wrapper_counter_incremented _ env s t uid hav hfi hfe hw hcount
  · intro hle
    rw [rate_limit_unfold _ env s t uid hav hfi hfe]
    by_cases h1 : (redisIncr s t ("rate_limit:" ++ toString uid)).1 = 1
    · rw [if_pos h1]
      obtain ⟨tail, hev, -, -⟩ := rateLimitAfter_allowed _ env _ uid _ _ hle
      rw [hev]
      simp [hde]
    · rw [if_neg h1]
      obtain ⟨tail, hev, -, -⟩ := rateLimitAfter_allowed _ env _ uid _ _ hle
      rw [hev]
      simp [hde]
  · intro hgt
    have hsne : ("Access denied." : String) ≠ "Rate limit exceeded. Please try again later." := by
      decide
    rw [rate_limit_unfold _ env s t uid hav hfi hfe]
    by_cases h1 : (redisIncr s t ("rate_limit:" ++ toString uid)).1 = 1
    · rw [if_pos h1]
      obtain ⟨hev, -, -⟩ := rateLimitAfter_rejected _ env _ uid _ _ hgt
      rw [hev]
      exact ⟨by simp [hsne], by simp⟩
    · rw [if_neg h1]
      obtain ⟨hev, -, -⟩ := rateLimitAfter_rejected _ env _ uid _ _ hgt
      rw [hev]
      exact ⟨by simp [hsne], by simp⟩
  · intro uid2 text2 cmdTok hadm2 hsplit2 hle2
    have hde2 : ∀ st : Store, stop_simulation env uid2 text2 st =
        { events := [.reply "Usage: /stop <tracking_number>\nExample: /stop TRK20231010120000ABC123",
                     .logWarning "Invalid /stop command format"],
          store := st, exc := none } := by
      intro st
      simp [stop_simulation, hadm2, hsplit2]
    have hcount2 : ∀ st : Store,
        (stop_simulation env uid2 text2 st).store.counters = st.counters := by
      intro st
      rw [hde2 st]
    constructor
    · rw [rate_limit_unfold _ env s t uid2 hav hfi hfe]
      by_cases h1 : (redisIncr s t ("rate_limit:" ++ toString uid2)).1 = 1
      · rw [if_pos h1]
        obtain ⟨tail, hev, -, -⟩ := rateLimitAfter_allowed _ env _ uid2 _ _ hle2
        rw [hev]
        simp [hde2]
      · rw [if_neg h1]
        obtain ⟨tail, hev, -, -⟩ := rateLimitAfter_allowed _ env _ uid2 _ _ hle2
        rw [hev]
        simp [hde2]
    · exact wrapper_counter_incremented _ env s t uid2 hav hfi hfe hw hcount2

/-- Claim C9, witness: non-admin user 9 on the empty store: the run starts
with the `INCR`, the denial is delivered (count 1 of at most 5), and the
counter was consumed. -/
theorem rate_limit_counter_consumed_before_auth_witness :
    (runStop baseEnv emptyStore 0 9 "/stop TRK1").events.head? =
      some (.incrOp ("rate_limit:" ++ toString 9))
    ∧ Event.reply "Access denied." ∈ (runStop baseEnv emptyStore 0 9 "/stop TRK1").events
    ∧ (liveEntry (runStop baseEnv emptyStore 0 9 "/stop TRK1").store.counters 0
         ("rate_limit:" ++ toString 9)).map Counter.count =
        some (redisIncr emptyStore 0 ("rate_limit:" ++ toString 9)).1 := by
  have h := rate_limit_counter_consumed_before_auth baseEnv emptyStore 0 9 "/stop TRK1"
    rfl rfl rfl (by decide) (by decide)
  exact ⟨h.1, h.2.2.1 (by decide), h.2.1⟩

end Signment
